import Mathlib

/-!
Verification of the Social-Hub-Chirp client (React + supabase backend).

The development shallowly embeds the state-bearing logic of the three
source files:

* `src/components/PostFeed.jsx` — the feed view: `fetchPosts`,
  `handleSubmitPost`, the realtime `postgres_changes` handler, and the
  profile bootstrap in `initializeUser`.
* `src/components/Auth.jsx` (unnamed part_000) — the auth form:
  `handleAuth` for both `LOGIN` and `SIGNUP`.
* `src/App.jsx` — the session holder (no claims target it directly).

React `useState` cells become fields of explicit state records; each
async handler becomes a pure state transformer parameterised by the
outcome of the external calls it awaits.  External-store behaviour that
a claim depends on (the `order` clause of a select, the `upsert` with
`onConflict: 'id'`) is modelled from the documented external interface.
-/

/-! ## JavaScript string primitives used by the handlers -/

/-- The characters `String.prototype.trim` removes (the ones relevant to
this client: space, tab, newline, carriage return, vertical tab, form
feed). -/
def jsWhitespace (c : Char) : Bool :=
  c = ' ' || c = '\t' || c = '\n' || c = '\r' || c = '\x0b' || c = '\x0c'

/-- JavaScript `s.trim()`: strip leading and trailing whitespace. -/
def jsTrim (s : String) : String :=
  ⟨((s.data.dropWhile jsWhitespace).reverse.dropWhile jsWhitespace).reverse⟩

/-- Whether the first character list is an initial segment of the second. -/
def listPrefixOf : List Char → List Char → Bool
  | [], _ => true
  | _ :: _, [] => false
  | a :: as, b :: bs => a == b && listPrefixOf as bs

/-- Whether the first character list occurs contiguously in the second. -/
def listSubOf (needle : List Char) : List Char → Bool
  | [] => needle.isEmpty
  | c :: t => listPrefixOf needle (c :: t) || listSubOf needle t

/-- JavaScript `hay.includes(sub)`: substring containment. -/
def jsIncludes (hay sub : String) : Bool :=
  listSubOf sub.data hay.data

/-- JavaScript `s || default` for strings: the fallback fires exactly on
the empty (falsy) string. -/
def jsOrElse (s default : String) : String :=
  if s = "" then default else s

/-! ## Data model (rows as the client sees them) -/

/-- The joined author profile embedded in a post row
(`profiles (username, avatar_url)` in the select). -/
structure ProfileInfo where
  username : String
  avatar_url : Option String
deriving DecidableEq, Repr

/-- A row of the `posts` table as selected by the feed
(`id, content, created_at, user_id, profiles(...)`); `created_at` is the
timestamp in some order-preserving encoding. -/
structure Post where
  id : Nat
  content : String
  created_at : Nat
  user_id : String
  profiles : Option ProfileInfo
deriving DecidableEq, Repr

/-- The authenticated user as returned by `auth.getUser()` /
`signInWithPassword`. -/
structure User where
  id : String
  email : Option String
deriving DecidableEq, Repr

/-- A row of the `profiles` table. -/
structure ProfileRow where
  id : String
  username : String
  avatar_url : Option String
deriving DecidableEq, Repr

/-! ## Realtime reconciliation (PostFeed.jsx, subscription handler) -/

/-- What the realtime handler does with the in-memory list: patch it in
place, or (default branch) fall back to a full `fetchPosts`. -/
inductive RealtimeAction where
  | patched (posts : List Post)
  | refetch
deriving DecidableEq, Repr

/-- The `switch (payload.eventType)` of the `postgres_changes` handler in
`PostFeed.jsx`: `INSERT` prepends `payload.new`; `DELETE` filters out
rows whose id equals `payload.old.id`; `UPDATE` maps rows with
`payload.new.id` to `payload.new`; any other event type refetches. -/
def handleRealtimeEvent (eventType : String) (newRow oldRow : Post)
    (prev : List Post) : RealtimeAction :=
  if eventType = "INSERT" then
    .patched (newRow :: prev)
  else if eventType = "DELETE" then
    .patched (prev.filter (fun post => post.id != oldRow.id))
  else if eventType = "UPDATE" then
    .patched (prev.map (fun post => if post.id = newRow.id then newRow else post))
  else
    .refetch

/-! ## Theorems for claim C1 -/

/-- Auxiliary: the UPDATE patch relates result and input pointwise. -/
theorem update_map_forall₂ (n : Post) (prev : List Post) :
    List.Forall₂ (fun q p => (p.id = n.id → q = n) ∧ (p.id ≠ n.id → q = p))
      (prev.map (fun post => if post.id = n.id then n else post)) prev := by
  induction prev with
  | nil => simp
  | cons p t ih =>
      refine List.Forall₂.cons ?_ ih
      by_cases h : p.id = n.id <;> simp [h]

/-- C1: the realtime handler patches the list exactly as the claim says:
INSERT prepends the one payload row (no de-duplication: the count of rows
carrying the payload id rises by one); DELETE removes precisely the rows
whose id equals the payload id; UPDATE replaces exactly the rows whose id
equals the payload id and preserves the length; any unrecognized event
type falls back to a refetch. -/
theorem realtime_patch_spec (et : String) (n o : Post) (prev : List Post) :
    (handleRealtimeEvent "INSERT" n o prev = .patched (n :: prev) ∧
      (n :: prev).countP (fun p => p.id == n.id)
        = prev.countP (fun p => p.id == n.id) + 1) ∧
    (handleRealtimeEvent "DELETE" n o prev
        = .patched (prev.filter (fun p => p.id != o.id)) ∧
      ∀ p, p ∈ prev.filter (fun q => q.id != o.id) ↔ p ∈ prev ∧ p.id ≠ o.id) ∧
    (handleRealtimeEvent "UPDATE" n o prev
        = .patched (prev.map (fun p => if p.id = n.id then n else p)) ∧
      (prev.map (fun p => if p.id = n.id then n else p)).length = prev.length ∧
      List.Forall₂ (fun q p => (p.id = n.id → q = n) ∧ (p.id ≠ n.id → q = p))
        (prev.map (fun p => if p.id = n.id then n else p)) prev) ∧
    (et ≠ "INSERT" → et ≠ "DELETE" → et ≠ "UPDATE" →
      handleRealtimeEvent et n o prev = .refetch) := by
  refine ⟨⟨rfl, ?_⟩, ⟨?_, ?_⟩, ⟨?_, ?_, update_map_forall₂ n prev⟩, ?_⟩
  · simp [List.countP_cons]
  · simp [handleRealtimeEvent]
  · intro p
    simp [List.mem_filter]
  · simp [handleRealtimeEvent]
  · simp
  · intro h1 h2 h3
    simp [handleRealtimeEvent, h1, h2, h3]

/-- Sample rows used to instantiate witnesses. -/
def samplePost : Post :=
  { id := 1, content := "hello", created_at := 10, user_id := "u1", profiles := none }

def samplePost2 : Post :=
  { id := 2, content := "world", created_at := 20, user_id := "u1", profiles := none }

/-- Witness for C1 at concrete inputs: an unrecognized event type
(`TRUNCATE`) triggers the refetch fallback. -/
theorem realtime_patch_spec_witness :
    handleRealtimeEvent "TRUNCATE" samplePost samplePost2 [samplePost] = .refetch :=
  (realtime_patch_spec "TRUNCATE" samplePost samplePost2 [samplePost]).2.2.2
    (by decide) (by decide) (by decide)

/-! ## Feed state and fetchPosts (PostFeed.jsx) -/

/-- The `useState` cells of `PostFeed`. -/
structure FeedState where
  posts : List Post
  user : Option User
  newPostContent : String
  isPosting : Bool
  loading : Bool
  error : Option String
deriving DecidableEq, Repr

/-- The `data` field of a select response: either a JS array of rows or
some non-array value (including `null`), which the code rejects with
`Array.isArray`. -/
inductive RespData where
  | arr (rows : List Post)
  | notArray
deriving DecidableEq, Repr

/-- Outcome of the awaited select: a non-null `fetchError`, or a `data`
payload. -/
inductive FetchResp where
  | failure (msg : String)
  | success (data : RespData)
deriving DecidableEq, Repr

/-- The message `fetchPosts` surfaces on any failure. -/
def fetchFailMsg : String := "Failed to load posts. Please refresh the page."

/-- `fetchPosts` from `PostFeed.jsx` as a state transformer on the
response: sets `loading`/clears `error` up front, stores `data` when it
is an array, otherwise (thrown fetch error, or `Invalid data format
received`) sets the generic reload message; `finally` clears `loading`. -/
def fetchPosts (resp : FetchResp) (s : FeedState) : FeedState :=
  let s1 := { s with loading := true, error := none }
  match resp with
  | .failure _ => { s1 with error := some fetchFailMsg, loading := false }
  | .success (.arr rows) => { s1 with posts := rows, loading := false }
  | .success .notArray => { s1 with error := some fetchFailMsg, loading := false }

/-- Descending order on `created_at`: `a` may precede `b` when `a` is at
least as recent. -/
def createdAtDesc (a b : Post) : Prop := b.created_at ≤ a.created_at

instance : DecidableRel createdAtDesc := fun a b =>
  inferInstanceAs (Decidable (b.created_at ≤ a.created_at))

instance : IsTotal Post createdAtDesc :=
  ⟨fun a b => Nat.le_total b.created_at a.created_at⟩

instance : IsTrans Post createdAtDesc :=
  ⟨fun _ _ _ hab hbc => Nat.le_trans hbc hab⟩

/-- Modelled from the documented external interface: the store answers
`select(...).order('created_at', { ascending: false })` with the table's
rows sorted by `created_at` descending. -/
def storeSelectPostsDesc (table : List Post) : List Post :=
  table.insertionSort createdAtDesc

/-! ## Theorems for claims C6, C7, C9 -/

/-- C6: after a successful fetch the in-memory list is exactly the rows
the store returned, and — the store honouring the descending order
clause — that list is sorted by `created_at` descending. -/
theorem fetchPosts_success_sorted (s : FeedState) :
    (∀ rows : List Post,
      (fetchPosts (.success (.arr rows)) s).posts = rows) ∧
    (∀ table : List Post,
      List.Sorted createdAtDesc
        (fetchPosts (.success (.arr (storeSelectPostsDesc table))) s).posts) := by
  constructor
  · intro rows; rfl
  · intro table
    show List.Sorted createdAtDesc (storeSelectPostsDesc table)
    exact List.sorted_insertionSort createdAtDesc table

/-- C7: a successful response whose `data` is not an array is treated as
a failure: the generic reload message is set and the post list is left
untouched. -/
theorem fetchPosts_notArray_failure (s : FeedState) :
    (fetchPosts (.success .notArray) s).error = some fetchFailMsg ∧
    (fetchPosts (.success .notArray) s).posts = s.posts := by
  exact ⟨rfl, rfl⟩

/-- C9: a failing fetch (backend error or malformed data) leaves the post
list, the draft, the busy flag and the user exactly as they were; only
the error message and the loading flag change. -/
theorem fetchPosts_failure_atomic (s : FeedState) (msg : String) :
    ((fetchPosts (.failure msg) s).posts = s.posts ∧
      (fetchPosts (.failure msg) s).newPostContent = s.newPostContent ∧
      (fetchPosts (.failure msg) s).isPosting = s.isPosting ∧
      (fetchPosts (.failure msg) s).user = s.user ∧
      (fetchPosts (.failure msg) s).error = some fetchFailMsg ∧
      (fetchPosts (.failure msg) s).loading = false) ∧
    ((fetchPosts (.success .notArray) s).posts = s.posts ∧
      (fetchPosts (.success .notArray) s).newPostContent = s.newPostContent ∧
      (fetchPosts (.success .notArray) s).isPosting = s.isPosting ∧
      (fetchPosts (.success .notArray) s).user = s.user ∧
      (fetchPosts (.success .notArray) s).error = some fetchFailMsg ∧
      (fetchPosts (.success .notArray) s).loading = false) := by
  exact ⟨⟨rfl, rfl, rfl, rfl, rfl, rfl⟩, ⟨rfl, rfl, rfl, rfl, rfl, rfl⟩⟩

/-! ## Post submission (PostFeed.jsx, handleSubmitPost) -/

/-- The guard `!user?.id`: true when there is no user or its id is the
falsy empty string. -/
def userMissing : Option User → Bool
  | none => true
  | some u => u.id == ""

/-- The `insert({content, user_id})` request body sent to the store. -/
structure InsertReq where
  content : String
  user_id : String
deriving DecidableEq, Repr

/-- Outcome of the awaited insert-and-select: an error with `err.message`
(possibly empty), or the inserted row joined with its profile. -/
inductive InsertResp where
  | failure (msg : String)
  | success (newPost : Post)
deriving DecidableEq, Repr

/-- The fallback message of `handleSubmitPost`. -/
def submitFailMsg : String := "Failed to create post. Please try again."

/-- `handleSubmitPost` from `PostFeed.jsx`: returns the next state and
the insert request it issued, if any.  The guard returns before any
request; otherwise the busy flag rises, the error clears, the insert is
awaited, and on success the confirmed row is prepended and the draft
cleared, while on failure `err.message || fallback` is surfaced; the
`finally` clears the busy flag. -/
def handleSubmitPost (resp : InsertResp) (s : FeedState) :
    FeedState × Option InsertReq :=
  if (jsTrim s.newPostContent) = "" || userMissing s.user then
    (s, none)
  else
    let req : InsertReq :=
      { content := s.newPostContent, user_id := (s.user.map User.id).getD "" }
    match resp with
    | .success np =>
        ({ s with error := none, posts := np :: s.posts,
                  newPostContent := "", isPosting := false }, some req)
    | .failure msg =>
        ({ s with error := some (jsOrElse msg submitFailMsg),
                  isPosting := false }, some req)

/-- A character list of pure whitespace is dropped whole. -/
theorem dropWhile_ws_eq_nil (l : List Char)
    (h : ∀ c ∈ l, jsWhitespace c = true) : l.dropWhile jsWhitespace = [] := by
  induction l with
  | nil => rfl
  | cons c t ih =>
      have hc : jsWhitespace c = true := h c (by simp)
      have ht : ∀ x ∈ t, jsWhitespace x = true := fun x hx => h x (by simp [hx])
      simp [List.dropWhile_cons, hc, ih ht]

/-- An all-whitespace draft trims to the empty string. -/
theorem jsTrim_of_all_whitespace (s : String)
    (h : ∀ c ∈ s.data, jsWhitespace c = true) : jsTrim s = "" := by
  unfold jsTrim
  rw [dropWhile_ws_eq_nil s.data h]
  rfl

/-! ## Theorems for claims C5 and C10 -/

/-- C5: with a draft that is empty or all whitespace, or with no
authenticated user, `handleSubmitPost` issues no insert request and
leaves the state — the post list included — untouched. -/
theorem submitPost_guard_noop (resp : InsertResp) (s : FeedState)
    (h : (∀ c ∈ s.newPostContent.data, jsWhitespace c = true) ∨ s.user = none) :
    handleSubmitPost resp s = (s, none) := by
  have hguard : ((jsTrim s.newPostContent) = "" || userMissing s.user) = true := by
    rcases h with hws | hu
    · simp [jsTrim_of_all_whitespace s.newPostContent hws]
    · simp [hu, userMissing]
  unfold handleSubmitPost
  simp only [Bool.or_eq_true] at hguard
  rcases hguard with hg | hg
  · simp [hg]
  · simp [hg]

/-- Witness for C5: submitting a three-space draft is a no-op. -/
theorem submitPost_guard_noop_witness :
    handleSubmitPost (.success samplePost)
      { posts := [samplePost2], user := some { id := "u1", email := none },
        newPostContent := "   ", isPosting := false, loading := false,
        error := none }
      = ({ posts := [samplePost2], user := some { id := "u1", email := none },
           newPostContent := "   ", isPosting := false, loading := false,
           error := none }, none) :=
  submitPost_guard_noop (.success samplePost) _ (Or.inl (by decide))

/-- C10: when the guard passes, a successful submission prepends the
confirmed row, clears the draft and the error, and drops the busy flag;
a failed submission leaves the list and the draft alone and surfaces
`err.message` (or the generic fallback when empty); in both cases the
user and the loading flag are untouched. -/
theorem submitPost_effects (s : FeedState) (np : Post) (msg : String)
    (hc : jsTrim s.newPostContent ≠ "") (hu : userMissing s.user = false) :
    ((handleSubmitPost (.success np) s).1.posts = np :: s.posts ∧
      (handleSubmitPost (.success np) s).1.newPostContent = "" ∧
      (handleSubmitPost (.success np) s).1.error = none ∧
      (handleSubmitPost (.success np) s).1.isPosting = false ∧
      (handleSubmitPost (.success np) s).1.user = s.user ∧
      (handleSubmitPost (.success np) s).1.loading = s.loading) ∧
    ((handleSubmitPost (.failure msg) s).1.posts = s.posts ∧
      (handleSubmitPost (.failure msg) s).1.newPostContent = s.newPostContent ∧
      (handleSubmitPost (.failure msg) s).1.error
        = some (jsOrElse msg submitFailMsg) ∧
      (handleSubmitPost (.failure msg) s).1.isPosting = false ∧
      (handleSubmitPost (.failure msg) s).1.user = s.user ∧
      (handleSubmitPost (.failure msg) s).1.loading = s.loading) := by
  unfold handleSubmitPost
  simp [hc, hu]

/-- Witness for C10 at a concrete state with a nonblank draft and a
present user. -/
theorem submitPost_effects_witness :
    (handleSubmitPost (.success samplePost)
      { posts := [], user := some { id := "u1", email := none },
        newPostContent := "hi", isPosting := false, loading := false,
        error := none }).1.posts = [samplePost] :=
  (submitPost_effects
    { posts := [], user := some { id := "u1", email := none },
      newPostContent := "hi", isPosting := false, loading := false,
      error := none }
    samplePost "oops" (by decide) (by decide)).1.1

/-! ## Submission interleaving (PostFeed.jsx, busy flag + disabled button)

The busy-flag mechanism is event-driven: the submit button carries
`disabled={isPosting || !newPostContent.trim()}`, so a click reaches
`handleSubmitPost` only while the flag is down; the handler then raises
the flag and issues the insert in the same synchronous slice, and the
awaited response drops the flag in `finally`.  The state machine below
records the flag, the draft, the user guard, and a ghost counter of
in-flight insert requests. -/

/-- Abstract state of the submission mechanism: the two `useState` cells
it reads (`isPosting`, draft), whether `user?.id` is truthy, and a ghost
count of insert requests issued but not yet answered. -/
structure SubmitSM where
  isPosting : Bool
  content : String
  userPresent : Bool
  inflight : Nat
deriving DecidableEq, Repr

/-- The button's `disabled` attribute: `isPosting || !newPostContent.trim()`. -/
def postButtonDisabled (s : SubmitSM) : Bool :=
  s.isPosting || (jsTrim s.content) == ""

/-- A click on the submit button: the browser drops it while the button
is disabled; otherwise `handleSubmitPost` runs — its own guard may still
bail out — and, past the guard, raises the busy flag and issues one
insert request (synchronously, before the first await). -/
def clickSubmit (s : SubmitSM) : SubmitSM :=
  if postButtonDisabled s then s
  else if (jsTrim s.content) == "" || !s.userPresent then s
  else { s with isPosting := true, inflight := s.inflight + 1 }

/-- The awaited insert resolves: the draft clears on success, and the
`finally` drops the busy flag; one request leaves flight. -/
def submitResponse (ok : Bool) (s : SubmitSM) : SubmitSM :=
  if s.inflight = 0 then s
  else if ok then
    { s with inflight := s.inflight - 1, isPosting := false, content := "" }
  else
    { s with inflight := s.inflight - 1, isPosting := false }

/-- Events of the submission mechanism. -/
inductive SubmitEvent where
  | click
  | response (ok : Bool)
deriving DecidableEq, Repr

def submitStep (s : SubmitSM) : SubmitEvent → SubmitSM
  | .click => clickSubmit s
  | .response ok => submitResponse ok s

/-- Run a serial trace of events (the JS event loop is single-threaded). -/
def runSubmit (s : SubmitSM) (tr : List SubmitEvent) : SubmitSM :=
  tr.foldl submitStep s

/-- The busy-flag invariant: the flag is up exactly while one insert is
in flight. -/
def submitInv (s : SubmitSM) : Prop :=
  s.inflight = if s.isPosting then 1 else 0

theorem submitStep_preserves_inv (s : SubmitSM) (e : SubmitEvent)
    (h : submitInv s) : submitInv (submitStep s e) := by
  obtain ⟨p, c, u, n⟩ := s
  cases e with
  | click =>
      cases p with
      | true =>
          have hn : n = 1 := by simpa [submitInv] using h
          simp [submitStep, clickSubmit, postButtonDisabled, submitInv, hn]
      | false =>
          have hn : n = 0 := by simpa [submitInv] using h
          by_cases hb : ((jsTrim c) == "") = true
          · simp [submitStep, clickSubmit, postButtonDisabled, submitInv, hb, hn]
          · cases u with
            | true =>
                simp [submitStep, clickSubmit, postButtonDisabled, submitInv,
                  hb, hn]
            | false =>
                simp [submitStep, clickSubmit, postButtonDisabled, submitInv,
                  hb, hn]
  | response ok =>
      cases p with
      | true =>
          have hn : n = 1 := by simpa [submitInv] using h
          cases ok <;> simp [submitStep, submitResponse, submitInv, hn]
      | false =>
          have hn : n = 0 := by simpa [submitInv] using h
          cases ok <;> simp [submitStep, submitResponse, submitInv, hn]

theorem runSubmit_preserves_inv (s : SubmitSM) (tr : List SubmitEvent)
    (h : submitInv s) : submitInv (runSubmit s tr) := by
  induction tr generalizing s with
  | nil => exact h
  | cons e t ih =>
      exact ih (submitStep s e) (submitStep_preserves_inv s e h)

/-! ## Theorem for claim C2 -/

/-- C2: starting with the flag down and nothing in flight, every serial
interleaving of clicks and responses keeps at most one insert request in
flight, and a click arriving while `isPosting` is up changes nothing — in
particular it issues no second insert. -/
theorem submit_single_flight (s0 : SubmitSM) (tr : List SubmitEvent)
    (hp : s0.isPosting = false) (hf : s0.inflight = 0) :
    (runSubmit s0 tr).inflight ≤ 1 ∧
    (∀ s : SubmitSM, s.isPosting = true → clickSubmit s = s) := by
  constructor
  · have h0 : submitInv s0 := by simp [submitInv, hp, hf]
    have h := runSubmit_preserves_inv s0 tr h0
    unfold submitInv at h
    rw [h]
    split <;> simp
  · intro s hs
    unfold clickSubmit postButtonDisabled
    simp [hs]

/-- Witness for C2: a double click followed by a response, from the idle
state with a nonblank draft. -/
theorem submit_single_flight_witness :
    (runSubmit
      { isPosting := false, content := "hi", userPresent := true, inflight := 0 }
      [.click, .click, .response true]).inflight ≤ 1 :=
  (submit_single_flight
    { isPosting := false, content := "hi", userPresent := true, inflight := 0 }
    [.click, .click, .response true] rfl rfl).1

/-! ## Auth form (Auth.jsx, unnamed part_000) -/

/-- The `useState` cells of the auth form. -/
structure AuthState where
  email : String
  password : String
  loading : Bool
  error : Option String
  message : Option String
deriving DecidableEq, Repr

/-- `handleAuth('LOGIN')` or `handleAuth('SIGNUP')`. -/
inductive AuthType where
  | LOGIN
  | SIGNUP
deriving DecidableEq, Repr

/-- The `data` payload of a successful auth call (`data.user` may be
null, e.g. a signup pending verification). -/
structure AuthData where
  user : Option User
deriving DecidableEq, Repr

/-- Outcome of the awaited `signInWithPassword` / `signUp`: a non-null
`authError` with its message, or a `data` payload. -/
inductive AuthResult where
  | failure (msg : String)
  | success (data : AuthData)
deriving DecidableEq, Repr

/-- Outcome of the profile upsert attempted after authentication. -/
inductive UpsertResult where
  | ok
  | fail (msg : String)
deriving DecidableEq, Repr

/-- The substring the catch block looks for to identify an RLS
rejection. -/
def rlsMarker : String := "row-level security policy"

/-- The signup success banner. -/
def signupMsg : String := "Verification sent to email! Please check your inbox."

/-- `handleAuth` from the auth component, returning the next state and
the `console.error` lines it emitted.  Both branches clear the banners
and raise `loading` first.  A thrown auth error reaches the outer catch,
which surfaces `error.message || 'Authentication failed'` unless the
message mentions the RLS marker (then it is only logged).  On signup
success the verification banner is set before the best-effort profile
upsert, whose failure is caught and logged inside the inner try; on
login success the upsert failure is likewise only logged.  `finally`
drops `loading`. -/
def handleAuth (type : AuthType) (auth : AuthResult) (upsert : UpsertResult)
    (s : AuthState) : AuthState × List String :=
  let s1 : AuthState := { s with loading := true, error := none, message := none }
  match auth with
  | .failure msg =>
      if jsIncludes msg rlsMarker then
        ({ s1 with loading := false }, ["Auth error: " ++ msg])
      else
        ({ s1 with error := some (jsOrElse msg "Authentication failed"),
                   loading := false }, ["Auth error: " ++ msg])
  | .success _ =>
      match type with
      | .SIGNUP =>
          let s2 := { s1 with message := some signupMsg }
          match upsert with
          | .ok => ({ s2 with loading := false }, [])
          | .fail pmsg =>
              ({ s2 with loading := false },
               ["Profile creation failed (non-critical): " ++ pmsg])
      | .LOGIN =>
          match upsert with
          | .ok => ({ s1 with loading := false }, [])
          | .fail pmsg =>
              ({ s1 with loading := false },
               ["Profile update failed: " ++ pmsg])

/-! ## Theorems for claims C3 and C4 -/

/-- C3: a failed sign-in whose message mentions the RLS marker sets no
visible error (the failure is only logged); any other failure surfaces
`error.message` (with the generic fallback exactly when the message is
empty). -/
theorem signin_failure_rls_swallowed (s : AuthState) (upsert : UpsertResult)
    (msg : String) :
    (jsIncludes msg rlsMarker = true →
      (handleAuth .LOGIN (.failure msg) upsert s).1.error = none ∧
      (handleAuth .LOGIN (.failure msg) upsert s).2 = ["Auth error: " ++ msg]) ∧
    (jsIncludes msg rlsMarker = false →
      (handleAuth .LOGIN (.failure msg) upsert s).1.error
        = some (jsOrElse msg "Authentication failed")) := by
  constructor
  · intro h
    unfold handleAuth
    simp [h]
  · intro h
    unfold handleAuth
    simp [h]

/-- Witness for C3: an RLS-flavoured failure leaves `error` unset. -/
theorem signin_failure_rls_swallowed_witness :
    (handleAuth .LOGIN
      (.failure "new row violates row-level security policy for table") .ok
      { email := "a@b.com", password := "secret1", loading := false,
        error := none, message := none }).1.error = none :=
  ((signin_failure_rls_swallowed
    { email := "a@b.com", password := "secret1", loading := false,
      error := none, message := none }
    .ok "new row violates row-level security policy for table").1 (by rfl)).1

/-- C4: when the registration call succeeds, the verification banner is
shown and no error is shown, whatever the subsequent profile upsert
does. -/
theorem signup_success_banner (s : AuthState) (data : AuthData)
    (upsert : UpsertResult) :
    (handleAuth .SIGNUP (.success data) upsert s).1.message = some signupMsg ∧
    (handleAuth .SIGNUP (.success data) upsert s).1.error = none := by
  unfold handleAuth
  cases upsert <;> simp

/-! ## Profile upsert idempotence (claim C8) -/

/-- Modelled from the documented external interface: the store's
`upsert(row, onConflict: 'id')` updates the row(s) whose primary key `id`
collides and inserts the row otherwise. -/
def upsertProfile (table : List ProfileRow) (p : ProfileRow) : List ProfileRow :=
  if table.any (fun r => r.id == p.id) then
    table.map (fun r => if r.id == p.id then p else r)
  else
    table ++ [p]

/-- Number of profile rows carrying a given id. -/
def profileCount (table : List ProfileRow) (i : String) : Nat :=
  table.countP (fun r => r.id == i)

/-- Replacing every id-colliding row by the upserted row does not change
how many rows carry that id. -/
theorem countP_map_upsert (p : ProfileRow) (t : List ProfileRow) :
    List.countP (fun r => r.id == p.id)
        (t.map (fun r => if r.id == p.id then p else r))
      = List.countP (fun r => r.id == p.id) t := by
  induction t with
  | nil => rfl
  | cons r t ih =>
      by_cases hid : r.id = p.id
      · simp only [List.map_cons, List.countP_cons, ih]
        simp [hid]
      · simp only [List.map_cons, List.countP_cons, ih]
        simp [hid]

theorem profileCount_upsert (table : List ProfileRow) (p : ProfileRow) :
    profileCount (upsertProfile table p) p.id
      = if profileCount table p.id = 0 then 1 else profileCount table p.id := by
  unfold upsertProfile profileCount
  by_cases hany : table.any (fun r => r.id == p.id)
  · have hpos : table.countP (fun r => r.id == p.id) ≠ 0 := by
      rcases List.any_eq_true.mp hany with ⟨r, hr, hid⟩
      have : 0 < table.countP (fun r => r.id == p.id) :=
        List.countP_pos_iff.mpr ⟨r, hr, hid⟩
      omega
    rw [if_pos hany, countP_map_upsert p table, if_neg hpos]
  · have hzero : table.countP (fun r => r.id == p.id) = 0 := by
      rw [List.countP_eq_zero]
      intro r hr
      by_contra hid
      exact hany (List.any_eq_true.mpr ⟨r, hr, by simpa using hid⟩)
    simp [hany, hzero, List.countP_append, List.countP_cons]

/-- C8: under the primary-key invariant (at most one profile row per id),
upserting twice with the same id leaves exactly one row for that id. -/
theorem upsertProfile_idempotent_rows (table : List ProfileRow)
    (p q : ProfileRow) (hid : q.id = p.id)
    (hpk : profileCount table p.id ≤ 1) :
    profileCount (upsertProfile (upsertProfile table p) q) p.id = 1 := by
  have h1 : profileCount (upsertProfile table p) p.id = 1 := by
    rw [profileCount_upsert]
    split
    · rfl
    · omega
  have h2 := profileCount_upsert (upsertProfile table p) q
  rw [hid] at h2
  rw [h2, h1]
  rfl

/-- Witness for C8: upserting the same id twice into a one-row table. -/
theorem upsertProfile_idempotent_rows_witness :
    profileCount
      (upsertProfile
        (upsertProfile [{ id := "u1", username := "old", avatar_url := none }]
          { id := "u1", username := "a", avatar_url := none })
        { id := "u1", username := "b", avatar_url := none }) "u1" = 1 :=
  upsertProfile_idempotent_rows
    [{ id := "u1", username := "old", avatar_url := none }]
    { id := "u1", username := "a", avatar_url := none }
    { id := "u1", username := "b", avatar_url := none }
    rfl (by decide)
